import Mathlib

/-!
Verification development for `src/app.py` of the moviepy captioning service.

The Python source is shallowly embedded below:

* `apply_text_transformations`, together with its regex helper
  (`re.sub(r'\b' + re.escape(find) + r'\b', replace, text, flags=re.IGNORECASE)`),
  is modelled on `List Char` by `reSubWordCI`: a left-to-right scan that
  replaces every non-overlapping occurrence of `find` (compared
  case-insensitively) that is delimited by word boundaries.  Word characters
  and case folding follow the ASCII fragment (`[A-Za-z0-9_]`), which covers
  every input considered here, and `re.escape` makes the pattern a literal.
  Python parses `replace` as a template: a malformed template makes `re.sub`
  raise even when nothing matches, which `replTemplateOk` models and
  `process_video` turns into a failing job; for templates that do parse, the
  escape translation of the inserted text is not modelled — `reSubWordCI`
  inserts the replacement verbatim, which coincides with Python exactly for
  backslash-free replacements (all that the concrete statements below use).
* the word wrapping (`words[i:i + max_words_per_line]` over
  `range(0, len(words), max_words_per_line)`) is `chunk`;
* `parse_position` is a direct transcription of the dictionary lookup;
* `process_video` is modelled as a deterministic function of an `Env`
  recording which external media operations (download, decode, text
  rendering, compositing, encoding, the `close()` calls) succeed, mirroring
  the `try`/`except` structure statement by statement.  The two pure-Python
  statements that can raise — the replacement-template parse of line 92 and
  the zero-step `range` of line 125 — are modelled as explicit checks at the
  point where they execute; the source never deletes the downloaded file,
  and the model records that;
* the `jobs` dictionary and `create_video_job` are modelled as an
  association list with Python-dict update semantics.
-/

/-- Python `\w` on the ASCII fragment: letters, digits and underscore. -/
def isWordChar (c : Char) : Bool :=
  c.isAlphanum || c == '_'

/-- Is position `i` of `s` occupied by a word character (out of range: no)? -/
def wordAt (s : List Char) (i : Nat) : Bool :=
  match s[i]? with
  | some c => isWordChar c
  | none => false

/-- Python regex `\b` at position `i` of `s`: the characters on the two sides
of the position differ in word-character status (positions outside the string
count as non-word). -/
def boundaryAt (s : List Char) (i : Nat) : Bool :=
  (match i with
   | 0 => false
   | j + 1 => wordAt s j) != wordAt s i

/-- ASCII-case-insensitive character comparison (re.IGNORECASE). -/
def ciEq (a b : Char) : Bool :=
  a.toLower == b.toLower

/-- Predicate `ciStarts p t`: the pattern `p` is a case-insensitive prefix of `t`. -/
def ciStarts : List Char → List Char → Bool
  | [], _ => true
  | _ :: _, [] => false
  | a :: p, b :: t => ciEq b a && ciStarts p t

/-- The pattern `\b` ++ literal `p` ++ `\b` matches `s` at position `i`. -/
def matchAt (s p : List Char) (i : Nat) : Bool :=
  boundaryAt s i && ciStarts p (s.drop i) && boundaryAt s (i + p.length)

/-- Left-to-right scan of `re.sub`: at each position try the anchored literal
pattern; on a match emit the replacement and skip the matched span (an empty
match emits the replacement and copies one character, as Python 3.7+ does);
otherwise copy one character.  `fuel` bounds the recursion; every call site
supplies at least `s.length + 1` steps, which the scan never exceeds. -/
def subScan (s p r : List Char) : Nat → Nat → List Char
  | _, 0 => []
  | i, fuel + 1 =>
    if matchAt s p i then
      if p.isEmpty then
        match s[i]? with
        | some c => r ++ (c :: subScan s p r (i + 1) fuel)
        | none => r
      else
        r ++ subScan s p r (i + p.length) fuel
    else
      match s[i]? with
      | some c => c :: subScan s p r (i + 1) fuel
      | none => []

/-- Model of `re.sub(r'\b' + re.escape(find) + r'\b', repl, s, flags=re.IGNORECASE)`. -/
def reSubWordCI (find repl s : List Char) : List Char :=
  subScan s find repl 0 (s.length + 2)

/-- Python `str.upper()` on the ASCII fragment. -/
def pyUpper (s : String) : String :=
  String.mk (s.data.map Char.toUpper)

/-- Python `str.lower()` on the ASCII fragment. -/
def pyLower (s : String) : String :=
  String.mk (s.data.map Char.toLower)

/-- Model of `class ReplaceItem(BaseModel)`: one find/replace rule. -/
structure ReplaceItem where
  find : String
  replace : String
deriving DecidableEq

/-- Model of `class TextSettings(BaseModel)` with the pydantic defaults.  The pydantic
fields are `Optional` with non-`None` defaults; an explicit `None` value is
outside the modelled domain. -/
structure TextSettings where
  line_color : String := "white"
  word_color : String := "white"
  all_caps : Bool := false
  max_words_per_line : Nat := 7
  font_size : Nat := 40
  bold : Bool := false
  italic : Bool := false
  underline : Bool := false
  strikeout : Bool := false
  outline_width : Nat := 1
  shadow_offset : Nat := 0
  style : String := "highlight"
  font_family : String := "Arial"
  position : String := "middle center"
deriving DecidableEq

/-- One iteration of the `for item in replace_items` loop in
`apply_text_transformations`. -/
def applyOne (result : String) (item : ReplaceItem) : String :=
  String.mk (reSubWordCI item.find.data item.replace.data result.data)

/-- Model of `apply_text_transformations(text, replace_items, settings)`. -/
def apply_text_transformations (text : String) (replace_items : List ReplaceItem)
    (settings : TextSettings) : String :=
  let result := replace_items.foldl applyOne text
  if settings.all_caps then pyUpper result else result


/-- Worker for `pySplit`: `cur` holds the characters of the word currently
being read, in reverse order. -/
def pySplitAux (cur : List Char) : List Char → List (List Char)
  | [] => if cur.isEmpty then [] else [cur.reverse]
  | c :: rest =>
    if c.isWhitespace then
      if cur.isEmpty then pySplitAux [] rest
      else cur.reverse :: pySplitAux [] rest
    else pySplitAux (c :: cur) rest

/-- Python `str.split()` with no argument: split on runs of whitespace and
discard empty fragments (`processed_text.split()` in `process_video`). -/
def pySplit (s : List Char) : List (List Char) :=
  pySplitAux [] s

/-- Worker for `chunk` with an explicit fuel bound on the number of slices;
`chunk` supplies `l.length`, which suffices whenever `n ≥ 1`. -/
def chunkAux {α : Type} (n : Nat) : Nat → List α → List (List α)
  | _, [] => []
  | 0, _ :: _ => []
  | fuel + 1, x :: xs => (x :: xs).take n :: chunkAux n fuel (xs.drop (n - 1))

/-- The slicing loop `for i in range(0, len(words), n): words[i:i + n]` of
`process_video`, for step `n ≥ 1`.  Python raises `ValueError` for `n = 0`
before slicing anything; `process_video` models that raise with an explicit
check, so `chunk` is only ever applied at `n ≥ 1`. -/
def chunk {α : Type} (n : Nat) (l : List α) : List (List α) :=
  chunkAux n l.length l

/-- Lines 123–129 of `process_video`: split the processed text into words and
join each slice of at most `n` words with single spaces. -/
def wrap_lines (n : Nat) (text : String) : List String :=
  (chunk n (pySplit text.data)).map (fun ws => String.intercalate " " (ws.map String.mk))

/-- The nine keys of the `positions` dictionary in `parse_position`. -/
def compassKeys : List String :=
  ["top left", "top center", "top right",
   "middle left", "middle center", "middle right",
   "bottom left", "bottom center", "bottom right"]

/-- Model of `parse_position(position_str)`: the dictionary lookup on the lowercased
string, with default `("center", "center")`. -/
def parse_position (position_str : String) : String × String :=
  let k := pyLower position_str
  if k = "top left" then ("left", "top")
  else if k = "top center" then ("center", "top")
  else if k = "top right" then ("right", "top")
  else if k = "middle left" then ("left", "center")
  else if k = "middle center" then ("center", "center")
  else if k = "middle right" then ("right", "center")
  else if k = "bottom left" then ("left", "bottom")
  else if k = "bottom center" then ("center", "bottom")
  else if k = "bottom right" then ("right", "bottom")
  else ("center", "center")


/-- One entry of the `jobs` dictionary.  A freshly queued entry has
`output_url = None`; a failed entry drops `output_url` and stores the error
string (`get_job_status` reads the missing key as `None`). -/
structure JobEntry where
  status : String
  output_url : Option String
  error : Option String
deriving DecidableEq

/-- Python dict assignment `jobs[k] = v`: later lookups of `k` see `v`. -/
def jobsSet (jobs : List (String × JobEntry)) (k : String) (v : JobEntry) :
    List (String × JobEntry) :=
  (k, v) :: jobs.filter (fun p => !(p.1 == k))

/-- Python dict lookup `jobs[k]` (as an `Option`). -/
def jobsGet (jobs : List (String × JobEntry)) (k : String) : Option JobEntry :=
  match jobs with
  | [] => none
  | (k', v) :: rest => if k' = k then some v else jobsGet rest k

/-- Model of `create_video_job`: choose the job id (`request.id if request.id else
str(uuid.uuid4())` — note Python truthiness: an empty-string id is replaced by
the generated one), store the initial `queued` entry, and return the updated
table together with the response payload.  The generated UUID is passed in as
`genId`; the background dispatch of `process_video` is modelled separately. -/
def create_video_job (jobs : List (String × JobEntry)) (reqId : Option String)
    (genId : String) : List (String × JobEntry) × String × String :=
  let job_id := match reqId with
    | some s => if s = "" then genId else s
    | none => genId
  (jobsSet jobs job_id { status := "queued", output_url := none, error := none },
   job_id, "queued")


/-- Octal-digit test, for replacement-template escapes. -/
def octDigit (c : Char) : Bool :=
  decide ('0' ≤ c) && decide (c ≤ '7')

/-- Worker for `replTemplateOk`, with fuel (each step consumes at least one
character, so `length + 1` steps always suffice).  It follows CPython's
`parse_template` for a pattern with zero groups (the pattern on line 92 is an
`re.escape`d literal, which has none): a trailing backslash is an error;
`\\` and the known escapes `\a \b \f \n \r \t \v` are fine; `\g<...>` must
name group 0 (a digit string of value zero), since no other group exists;
`\0` starts an octal escape of up to two more octal digits; any other digit
is either a three-octal-digit literal (value at most 0o377, i.e. first digit
at most 3) or a group reference, which errors with zero groups; any other
ASCII letter is a bad escape; a non-letter non-digit after the backslash is
left alone. -/
def replOkAux : Nat → List Char → Bool
  | 0, _ => true
  | _ + 1, [] => true
  | f + 1, c :: rest =>
    if c != '\\' then replOkAux f rest
    else
      match rest with
      | [] => false
      | d :: r2 =>
        if d == '\\' || d == 'a' || d == 'b' || d == 'f' || d == 'n'
            || d == 'r' || d == 't' || d == 'v' then
          replOkAux f r2
        else if d == 'g' then
          (match r2 with
           | '<' :: r3 =>
             (match r3.dropWhile (fun e => e != '>') with
              | _ :: r4 =>
                if !(r3.takeWhile (fun e => e != '>')).isEmpty
                   && (r3.takeWhile (fun e => e != '>')).all (fun e => e == '0') then
                  replOkAux f r4
                else false
              | [] => false)
           | _ => false)
        else if d == '0' then
          (match r2 with
           | e1 :: r3 =>
             if octDigit e1 then
               (match r3 with
                | e2 :: r4 => if octDigit e2 then replOkAux f r4 else replOkAux f r3
                | [] => replOkAux f r3)
             else replOkAux f r2
           | [] => replOkAux f r2)
        else if d.isDigit then
          (match r2 with
           | e1 :: e2 :: r4 =>
             if octDigit d && decide (d ≤ '3') && octDigit e1 && octDigit e2 then
               replOkAux f r4
             else false
           | _ => false)
        else if d.isAlpha then false
        else replOkAux f r2

/-- Does CPython's parse of `repl` as an `re.sub` replacement template (for a
pattern with zero groups) succeed?  `re.sub` parses the template whenever it
contains a backslash, before any match is attempted, so a bad template makes
line 92 raise `re.error` even on empty input with no match. -/
def replTemplateOk (repl : List Char) : Bool :=
  replOkAux (repl.length + 1) repl

/-- Does the replacement loop of `apply_text_transformations` raise?  Each
iteration is its own `re.sub` call, so the loop raises exactly when some
rule's replace value is a bad template. -/
def replItemsRaise (items : List ReplaceItem) : Bool :=
  items.any (fun i => !replTemplateOk i.replace.data)

/-- Outcomes of the external media operations invoked by `process_video`:
`true` means the call returns normally, `false` that it raises.  Dict
updates, `parse_position` and the remaining string manipulation cannot
raise and have no flag; the two pure-Python statements that can raise — the
replacement-template parse inside `re.sub` (line 92) and the
`range(0, len(words), 0)` of the wrap loop (line 125) — are modelled by
explicit input checks inside `process_video`, not by `Env` flags. -/
structure Env where
  downloadOk : Bool
  loadOk : Bool
  textClipOk : Bool
  compositeOk : Bool
  writeOk : Bool
  closeVideoOk : Bool
  closeTxtOk : Bool
  closeFinalOk : Bool
deriving DecidableEq

/-- The run in which every external operation succeeds. -/
def allOkEnv : Env :=
  ⟨true, true, true, true, true, true, true, true⟩

/-- Observable outcome of one `process_video` run: the successive values of
`jobs[job_id]["status"]` it writes, the final table entry, and the resource
ledger (what was downloaded/opened and what was deleted/closed by the end). -/
structure RunResult where
  trace : List String
  finalStatus : String
  outputUrl : Option String
  errorMsg : Option String
  fileDownloaded : Bool
  fileDeleted : Bool
  videoOpened : Bool
  videoClosed : Bool
  txtCreated : Bool
  txtClosed : Bool
  finalCreated : Bool
  finalClosed : Bool
  overlayText : Option String
  raisedOut : Bool
deriving DecidableEq

/-- The `except Exception as e` block of `process_video` (lines 173–183):
record the `failed` entry first, then close whichever of `video`, `txt_clip`,
`final_video` exist in `locals()`; a `close()` that itself raises aborts the
remaining closes and propagates out of the handler (`raisedOut`).  The
`videoClosed0`/`txtClosed0`/`finalClosed0` arguments carry closes already
performed on the success path before the exception. -/
def handleExcept (env : Env) (trace : List String) (err : String)
    (videoOpened txtCreated finalCreated : Bool)
    (videoClosed0 txtClosed0 finalClosed0 : Bool)
    (fileDownloaded : Bool) (overlayText : Option String) : RunResult :=
  let trace := trace ++ ["failed"]
  if videoOpened && !env.closeVideoOk then
    { trace := trace, finalStatus := "failed", outputUrl := none, errorMsg := some err,
      fileDownloaded := fileDownloaded, fileDeleted := false,
      videoOpened := videoOpened, videoClosed := videoClosed0,
      txtCreated := txtCreated, txtClosed := txtClosed0,
      finalCreated := finalCreated, finalClosed := finalClosed0,
      overlayText := overlayText, raisedOut := true }
  else if txtCreated && !env.closeTxtOk then
    { trace := trace, finalStatus := "failed", outputUrl := none, errorMsg := some err,
      fileDownloaded := fileDownloaded, fileDeleted := false,
      videoOpened := videoOpened, videoClosed := videoClosed0 || videoOpened,
      txtCreated := txtCreated, txtClosed := txtClosed0,
      finalCreated := finalCreated, finalClosed := finalClosed0,
      overlayText := overlayText, raisedOut := true }
  else if finalCreated && !env.closeFinalOk then
    { trace := trace, finalStatus := "failed", outputUrl := none, errorMsg := some err,
      fileDownloaded := fileDownloaded, fileDeleted := false,
      videoOpened := videoOpened, videoClosed := videoClosed0 || videoOpened,
      txtCreated := txtCreated, txtClosed := txtClosed0 || txtCreated,
      finalCreated := finalCreated, finalClosed := finalClosed0,
      overlayText := overlayText, raisedOut := true }
  else
    { trace := trace, finalStatus := "failed", outputUrl := none, errorMsg := some err,
      fileDownloaded := fileDownloaded, fileDeleted := false,
      videoOpened := videoOpened, videoClosed := videoClosed0 || videoOpened,
      txtCreated := txtCreated, txtClosed := txtClosed0 || txtCreated,
      finalCreated := finalCreated, finalClosed := finalClosed0 || finalCreated,
      overlayText := overlayText, raisedOut := false }

/-- Model of `process_video(job_id, video_url, replace_items, settings, transcription)`,
lines 100–183, statement by statement.  The status written at submission time
(`queued`) belongs to `create_video_job`; the trace here starts with the
`downloading` write of line 104.  Two pure-Python statements can raise and
are modelled as explicit checks at the spot where they execute: the
replacement loop of line 92 raises `re.error` when some rule's replace value
is a bad template (`replItemsRaise`), and line 125's
`range(0, len(words), max_words_per_line)` raises `ValueError` when the step
is zero — in both cases the `except` block runs exactly as for a raising
external call.  The source contains no `os.remove`, so `fileDeleted` is
`false` on every path. -/
def process_video (env : Env) (job_id : String) (replace_items : List ReplaceItem)
    (settings : TextSettings) (transcription : String) : RunResult :=
  let trace0 := ["downloading"]
  if !env.downloadOk then
    handleExcept env trace0 "DownloadError" false false false false false false false none
  else
  let trace1 := trace0 ++ ["processing"]
  if !env.loadOk then
    handleExcept env trace1 "LoadError" false false false false false false true none
  else
  let text_to_show := transcription
  if replItemsRaise replace_items then
    handleExcept env trace1 "ReplaceTemplateError" true false false false false false true none
  else
  let processed_text := apply_text_transformations text_to_show replace_items settings
  if settings.max_words_per_line == 0 then
    handleExcept env trace1 "WrapRangeError" true false false false false false true none
  else
  let final_text := String.intercalate "\n" (wrap_lines settings.max_words_per_line processed_text)
  let _hv := parse_position settings.position
  if !env.textClipOk then
    handleExcept env trace1 "RenderError" true false false false false false true none
  else
  if !env.compositeOk then
    handleExcept env trace1 "CompositeError" true true false false false false true (some final_text)
  else
  if !env.writeOk then
    handleExcept env trace1 "EncodeError" true true true false false false true (some final_text)
  else
  let output_url := "file:///tmp/processed_" ++ job_id ++ ".mp4"
  if !env.closeVideoOk then
    handleExcept env trace1 "CloseVideoError" true true true false false false true (some final_text)
  else
  if !env.closeTxtOk then
    handleExcept env trace1 "CloseTxtError" true true true true false false true (some final_text)
  else
  if !env.closeFinalOk then
    handleExcept env trace1 "CloseFinalError" true true true true true false true (some final_text)
  else
  { trace := trace1 ++ ["completed"], finalStatus := "completed",
    outputUrl := some output_url, errorMsg := none,
    fileDownloaded := true, fileDeleted := false,
    videoOpened := true, videoClosed := true,
    txtCreated := true, txtClosed := true,
    finalCreated := true, finalClosed := true,
    overlayText := some final_text, raisedOut := false }

/-- Rank of a job status in the intended progression; both terminal states
share the top rank. -/
def statusRank (s : String) : Nat :=
  if s = "queued" then 0
  else if s = "downloading" then 1
  else if s = "processing" then 2
  else 3

/-- The status trace of a `process_video` run depends only on which external
operations succeed and on whether one of the two pure-Python raising
statements fires (`pureRaise`), not otherwise on the textual inputs. -/
def traceOf (env : Env) (pureRaise : Bool) : List String :=
  if !env.downloadOk then ["downloading", "failed"]
  else if !env.loadOk then ["downloading", "processing", "failed"]
  else if pureRaise then ["downloading", "processing", "failed"]
  else if env.textClipOk && env.compositeOk && env.writeOk
       && env.closeVideoOk && env.closeTxtOk && env.closeFinalOk then
    ["downloading", "processing", "completed"]
  else ["downloading", "processing", "failed"]


/-- Adjacent statuses strictly ascend in `statusRank`: no status repeats and
no backward transition occurs. -/
def ascendingRanks : List String → Bool
  | [] => true
  | [_] => true
  | a :: b :: rest => decide (statusRank a < statusRank b) && ascendingRanks (b :: rest)

set_option maxHeartbeats 1600000 in
theorem trace_indep (env : Env) (job_id : String) (items : List ReplaceItem)
    (settings : TextSettings) (t : String) :
    (process_video env job_id items settings t).trace
      = traceOf env (replItemsRaise items || settings.max_words_per_line == 0) := by
  rcases env with ⟨d, l, tc, co, w, cv, ct, cf⟩
  cases hri : replItemsRaise items <;>
    cases hmw : settings.max_words_per_line == 0 <;>
    simp only [process_video, hri, hmw] <;>
    cases d <;> cases l <;> cases tc <;> cases co <;> cases w <;>
    cases cv <;> cases ct <;> cases cf <;> rfl

theorem chunkAux_nil {α : Type} (n f : Nat) : chunkAux n f ([] : List α) = [] := by
  cases f <;> rfl

theorem chunkAux_flatten {α : Type} (m : Nat) :
    ∀ (fuel : Nat) (ws : List α), ws.length ≤ fuel →
      (chunkAux (m + 1) fuel ws).flatten = ws := by
  intro fuel
  induction fuel with
  | zero =>
    intro ws h
    obtain rfl : ws = [] := List.length_eq_zero.mp (Nat.le_zero.mp h)
    simp [chunkAux_nil]
  | succ f ih =>
    intro ws h
    cases ws with
    | nil => simp [chunkAux_nil]
    | cons x xs =>
      have hxs : xs.length ≤ f := by
        simp only [List.length_cons] at h
        omega
      have hle : (xs.drop m).length ≤ f := by
        rw [List.length_drop]
        omega
      simp only [chunkAux, Nat.add_sub_cancel, List.flatten_cons]
      rw [ih (xs.drop m) hle, List.take_succ_cons]
      simp [List.take_append_drop]

theorem chunkAux_length_le {α : Type} (n : Nat) :
    ∀ (fuel : Nat) (ws : List α) (c : List α), c ∈ chunkAux n fuel ws → c.length ≤ n := by
  intro fuel
  induction fuel with
  | zero =>
    intro ws c hc
    cases ws <;> simp [chunkAux_nil, chunkAux] at hc
  | succ f ih =>
    intro ws c hc
    cases ws with
    | nil => simp [chunkAux_nil] at hc
    | cons x xs =>
      cases n with
      | zero =>
        simp only [chunkAux, List.take_zero, List.mem_cons] at hc
        rcases hc with rfl | hc
        · simp
        · exact ih _ _ hc
      | succ m =>
        simp only [chunkAux, List.mem_cons] at hc
        rcases hc with rfl | hc
        · rw [List.length_take]
          omega
        · exact ih _ _ hc

theorem chunkAux_dropLast {α : Type} (m : Nat) :
    ∀ (fuel : Nat) (ws : List α), ws.length ≤ fuel →
      ∀ c ∈ (chunkAux (m + 1) fuel ws).dropLast, c.length = m + 1 := by
  intro fuel
  induction fuel with
  | zero =>
    intro ws h c hc
    obtain rfl : ws = [] := List.length_eq_zero.mp (Nat.le_zero.mp h)
    simp [chunkAux_nil] at hc
  | succ f ih =>
    intro ws h c hc
    cases ws with
    | nil => simp [chunkAux_nil] at hc
    | cons x xs =>
      have hxs : xs.length ≤ f := by
        simp only [List.length_cons] at h
        omega
      have hle : (xs.drop m).length ≤ f := by
        rw [List.length_drop]
        omega
      simp only [chunkAux, Nat.add_sub_cancel] at hc
      rcases hrest : chunkAux (m + 1) f (xs.drop m) with _ | ⟨b, rest⟩
      · rw [hrest, List.dropLast_single] at hc
        simp at hc
      · rw [hrest, List.dropLast_cons₂, List.mem_cons] at hc
        rcases hc with rfl | hc
        · have hne : xs.drop m ≠ [] := by
            intro hnil
            rw [hnil, chunkAux_nil] at hrest
            exact (List.cons_ne_nil _ _) hrest.symm
          have hlen : m < xs.length := by
            by_contra hcon
            exact hne (List.drop_eq_nil_of_le (by omega))
          rw [List.length_take]
          simp only [List.length_cons]
          omega
        · have := ih (xs.drop m) hle c
          rw [hrest] at this
          exact this hc

theorem boundaryAt_beyond (s : List Char) (i : Nat) (h : s.length < i) :
    boundaryAt s i = false := by
  have h1 : wordAt s i = false := by
    unfold wordAt
    rw [List.getElem?_eq_none (by omega)]
  have h2 : ∀ j, s.length ≤ j → wordAt s j = false := by
    intro j hj
    unfold wordAt
    rw [List.getElem?_eq_none hj]
  unfold boundaryAt
  cases i with
  | zero => omega
  | succ j =>
    show (wordAt s j != wordAt s (j + 1)) = false
    rw [h2 j (by omega), h2 (j + 1) (by omega)]
    rfl

theorem subScan_noMatch (p r s : List Char) :
    ∀ (fuel i : Nat), i ≤ s.length → s.length - i < fuel →
      (∀ j, j < s.length + 1 → matchAt s p j = false) →
      subScan s p r i fuel = s.drop i := by
  intro fuel
  induction fuel with
  | zero =>
    intro i _ h2 _
    omega
  | succ f ih =>
    intro i h1 h2 hno
    rw [subScan, hno i (by omega)]
    simp only [Bool.false_eq_true, if_false]
    rcases hg : s[i]? with _ | c
    · have hlen : s.length ≤ i := by
        by_contra hcon
        rw [List.getElem?_eq_getElem (by omega)] at hg
        exact Option.noConfusion hg
      rw [List.drop_eq_nil_of_le hlen]
    · have hi : i < s.length := (List.getElem?_eq_some.mp hg).1
      rw [ih (i + 1) (by omega) (by omega) hno]
      rw [List.drop_eq_getElem_cons hi]
      have : s[i] = c := (List.getElem?_eq_some.mp hg).2
      rw [this]

theorem applyOne_empty (item : ReplaceItem) : applyOne "" item = "" := by
  have h : matchAt [] item.find.data 0 = false := by
    unfold matchAt boundaryAt wordAt
    simp
  show String.mk (subScan [] item.find.data item.replace.data 0 2) = ""
  rw [subScan, h]
  rfl

theorem foldl_applyOne_empty (items : List ReplaceItem) :
    items.foldl applyOne "" = "" := by
  induction items with
  | nil => rfl
  | cons i is ih =>
    show is.foldl applyOne (applyOne "" i) = ""
    rw [applyOne_empty]
    exact ih

/-- Claim C1, as stated, is false of the code: with the rule
`{find: "damn", replace: "[bleep]"}` and input `"damn it"`, the rule's find
value matches the display text case-insensitively, yet
`apply_text_transformations` yields `"[bleep] it"` — the matched span is
spliced, the whole text is not replaced. -/
theorem c1_whole_text_replacement_refuted :
    apply_text_transformations "damn it" [⟨"damn", "[bleep]"⟩] {} = "[bleep] it"
    ∧ ("[bleep] it" : String) ≠ "[bleep]" := by
  constructor
  · decide
  · decide

/-- Claim C1 (amended): for every rule and input text, the engine rewrites
only the matched whole-word spans: text in which the rule's find value has no
whole-word case-insensitive occurrence is returned unchanged, and in
`"damn it"` only the word `"damn"` is replaced, yielding `"[bleep] it"`
rather than `"[bleep]"`. -/
theorem c1_span_replacement :
    (∀ find repl s : String,
       (∀ i, i < s.data.length + 1 → matchAt s.data find.data i = false) →
       applyOne s ⟨find, repl⟩ = s)
    ∧ apply_text_transformations "damn it" [⟨"damn", "[bleep]"⟩] {} = "[bleep] it" := by
  constructor
  · intro find repl s h
    show String.mk (reSubWordCI find.data repl.data s.data) = s
    unfold reSubWordCI
    rw [subScan_noMatch find.data repl.data s.data (s.data.length + 2) 0
      (by omega) (by omega) h]
    rfl
  · decide

theorem c1_span_replacement_witness :
    applyOne "hello" ⟨"xyz", "Q"⟩ = "hello" :=
  c1_span_replacement.1 "xyz" "Q" "hello" (by decide)

/-- Claim C2: `apply_text_transformations` performs the find/replace
substitutions first and the all-caps transform last — for any text, rules and
settings, the all-caps run equals `upper` applied to the no-caps run — and on
input `"damn"` with rule `{find: "damn", replace: "[bleep]"}` the result is
`"[bleep]"`, becoming `"[BLEEP]"` when `all_caps` is set. -/
theorem c2_substitution_then_caps :
    (∀ (text : String) (items : List ReplaceItem) (s : TextSettings),
       apply_text_transformations text items { s with all_caps := true } =
         pyUpper (apply_text_transformations text items { s with all_caps := false }))
    ∧ apply_text_transformations "damn" [⟨"damn", "[bleep]"⟩] {} = "[bleep]"
    ∧ apply_text_transformations "damn" [⟨"damn", "[bleep]"⟩] { all_caps := true }
        = "[BLEEP]" := by
  refine ⟨fun text items s => rfl, ?_, ?_⟩
  · decide
  · decide

/-- Claim C6: for every `max_words_per_line` `n ≥ 1` and every text, the
wrapping loop slices the whitespace-split word list greedily: the slices
concatenate back to the word list, every slice has at most `n` words, every
slice except possibly the last has exactly `n` words, and each line joins its
slice with single spaces; on the 7-word example with `n = 3` the lines are
`"the quick brown"`, `"fox jumps over"`, `"lazy"`. -/
theorem c6_word_wrap :
    (∀ n : Nat, 1 ≤ n → ∀ text : String,
       (chunk n (pySplit text.data)).flatten = pySplit text.data
       ∧ (∀ c ∈ chunk n (pySplit text.data), c.length ≤ n)
       ∧ (∀ c ∈ (chunk n (pySplit text.data)).dropLast, c.length = n)
       ∧ wrap_lines n text = (chunk n (pySplit text.data)).map
           (fun ws => String.intercalate " " (ws.map String.mk)))
    ∧ wrap_lines 3 "the quick brown fox jumps over lazy" =
        ["the quick brown", "fox jumps over", "lazy"]
    ∧ String.intercalate "\n" (wrap_lines 3 "the quick brown fox jumps over lazy") =
        "the quick brown\nfox jumps over\nlazy" := by
  refine ⟨?_, by decide, by decide⟩
  intro n hn text
  obtain ⟨m, rfl⟩ : ∃ m, n = m + 1 := ⟨n - 1, by omega⟩
  refine ⟨chunkAux_flatten m _ _ le_rfl,
          fun c hc => chunkAux_length_le (m + 1) _ _ c hc,
          chunkAux_dropLast m _ _ le_rfl, rfl⟩

theorem c6_word_wrap_witness :
    (chunk 3 (pySplit "a b c d".data)).flatten = pySplit "a b c d".data :=
  (c6_word_wrap.1 3 (by decide) "a b c d").1

/-- Claim C7, as stated, is false of the code: on a run in which every
external operation succeeds and the transcription is empty, `process_video`
still constructs a `TextClip` — with empty text — and composites it over the
video; no empty-text guard exists. -/
theorem c7_empty_overlay_refuted :
    (process_video allOkEnv "jobA" [] {} "").txtCreated = true
    ∧ (process_video allOkEnv "jobA" [] {} "").finalCreated = true
    ∧ (process_video allOkEnv "jobA" [] {} "").overlayText = some "" := by
  refine ⟨rfl, rfl, by decide⟩

/-- Claim C7 (amended): empty input text yields empty output text from
`apply_text_transformations` for every rule list and settings, but the
renderer does not special-case it — `process_video` creates and composites a
text overlay unconditionally, so an empty transcription still produces an
(empty-text) overlay layer. -/
theorem c7_empty_text :
    (∀ (items : List ReplaceItem) (settings : TextSettings),
       apply_text_transformations "" items settings = "")
    ∧ (process_video allOkEnv "job0" [] {} "").overlayText = some ""
    ∧ (process_video allOkEnv "job0" [] {} "").txtCreated = true := by
  refine ⟨?_, by decide, rfl⟩
  intro items settings
  show (if settings.all_caps then pyUpper (items.foldl applyOne "")
        else items.foldl applyOne "") = ""
  rw [foldl_applyOne_empty]
  cases hb : settings.all_caps
  · simp [hb]
  · simp only [hb, if_true]
    decide

/-- Claim C8: `parse_position` always yields a horizontal anchor in
`{left, center, right}` and a vertical anchor in `{top, center, bottom}`,
maps each of the nine compass keys to its dictionary value (after
lowercasing), and maps every unrecognized position to `("center", "center")`. -/
theorem c8_parse_position :
    (∀ s : String,
       ((parse_position s).1 = "left" ∨ (parse_position s).1 = "center"
          ∨ (parse_position s).1 = "right")
       ∧ ((parse_position s).2 = "top" ∨ (parse_position s).2 = "center"
          ∨ (parse_position s).2 = "bottom"))
    ∧ (parse_position "top left" = ("left", "top")
       ∧ parse_position "top center" = ("center", "top")
       ∧ parse_position "top right" = ("right", "top")
       ∧ parse_position "middle left" = ("left", "center")
       ∧ parse_position "middle center" = ("center", "center")
       ∧ parse_position "middle right" = ("right", "center")
       ∧ parse_position "bottom left" = ("left", "bottom")
       ∧ parse_position "bottom center" = ("center", "bottom")
       ∧ parse_position "bottom right" = ("right", "bottom"))
    ∧ (∀ s : String, pyLower s ∉ compassKeys →
         parse_position s = ("center", "center")) := by
  refine ⟨?_, by decide, ?_⟩
  · intro s
    simp only [parse_position]
    split_ifs <;> simp
  · intro s h
    have n1 : pyLower s ≠ "top left" := fun e => h (by rw [e]; decide)
    have n2 : pyLower s ≠ "top center" := fun e => h (by rw [e]; decide)
    have n3 : pyLower s ≠ "top right" := fun e => h (by rw [e]; decide)
    have n4 : pyLower s ≠ "middle left" := fun e => h (by rw [e]; decide)
    have n5 : pyLower s ≠ "middle center" := fun e => h (by rw [e]; decide)
    have n6 : pyLower s ≠ "middle right" := fun e => h (by rw [e]; decide)
    have n7 : pyLower s ≠ "bottom left" := fun e => h (by rw [e]; decide)
    have n8 : pyLower s ≠ "bottom center" := fun e => h (by rw [e]; decide)
    have n9 : pyLower s ≠ "bottom right" := fun e => h (by rw [e]; decide)
    simp only [parse_position]
    rw [if_neg n1, if_neg n2, if_neg n3, if_neg n4, if_neg n5, if_neg n6,
        if_neg n7, if_neg n8, if_neg n9]

theorem c8_parse_position_witness :
    parse_position "diagonal" = ("center", "center") :=
  c8_parse_position.2.2 "diagonal" (by decide)

/-- Claim C9: when a submission reuses an existing job id,
`create_video_job` overwrites that job's table entry with a fresh
`queued` entry whose output reference is `None`, so whatever status, output
reference or error the id previously recorded is no longer retrievable. -/
theorem c9_resubmission_overwrites (jobs : List (String × JobEntry))
    (id genId : String) (entry : JobEntry) (hid : id ≠ "")
    (_hprev : jobsGet jobs id = some entry) :
    jobsGet (create_video_job jobs (some id) genId).1 id
      = some { status := "queued", output_url := none, error := none } := by
  simp [create_video_job, jobsSet, jobsGet, hid]

theorem c9_resubmission_overwrites_witness :
    jobsGet (create_video_job
        [("job-1", ⟨"completed", some "file:///tmp/processed_job-1.mp4", none⟩)]
        (some "job-1") "3f2e").1 "job-1"
      = some { status := "queued", output_url := none, error := none } :=
  c9_resubmission_overwrites
    [("job-1", ⟨"completed", some "file:///tmp/processed_job-1.mp4", none⟩)]
    "job-1" "3f2e" ⟨"completed", some "file:///tmp/processed_job-1.mp4", none⟩
    (by decide) (by decide)

/-- Claim C3, as stated, is false of the code: `process_video` performs no
transcript validation at all, so a job whose transcript yields zero words —
the empty transcription, the transcript with zero usable intervals — still
runs the whole pipeline and, when every external operation succeeds, ends
`completed` with no error recorded, rather than `failed` with a
`NoValidSegments` error. -/
theorem c3_no_valid_segments_refuted :
    (process_video allOkEnv "job-empty" [] {} "").finalStatus = "completed"
    ∧ (process_video allOkEnv "job-empty" [] {} "").errorMsg = none := by
  exact ⟨rfl, rfl⟩

/-- Claim C3 (amended): the code has no validation step and no
`NoValidSegments` error class; a transcript yielding zero valid intervals
(empty transcription) is processed like any other, and whenever every
external operation succeeds and neither pure-Python raising statement fires
— every rule's replace value is a well-formed replacement template and
`max_words_per_line` is nonzero — the job reaches `completed` (with an
empty-text overlay) and records no error; otherwise the raising statement,
like a raising external call, drives the job to `failed` with that
exception's message recorded. -/
theorem c3_empty_transcript_completes (job_id : String) (items : List ReplaceItem)
    (settings : TextSettings) (hrepl : replItemsRaise items = false)
    (hwrap : settings.max_words_per_line ≠ 0) :
    (process_video allOkEnv job_id items settings "").finalStatus = "completed"
    ∧ (process_video allOkEnv job_id items settings "").errorMsg = none
    ∧ (process_video allOkEnv job_id items settings "").trace
        = ["downloading", "processing", "completed"] := by
  have hb : (settings.max_words_per_line == 0) = false :=
    beq_eq_false_iff_ne.mpr hwrap
  simp only [process_video, hrepl, hb]
  exact ⟨rfl, rfl, rfl⟩

theorem c3_empty_transcript_completes_witness :
    (process_video allOkEnv "job-w" [] {} "").finalStatus = "completed" :=
  (c3_empty_transcript_completes "job-w" [] {} (by decide) (by decide)).1

/-- Claim C4, as stated, is false of the code: when the download raises, the
status sequence is `queued, downloading, failed`, which is not a prefix of
`queued → downloading → processing → (completed | failed)` — the `processing`
state is skipped on the way to `failed`. -/
theorem c4_prefix_refuted :
    "queued" :: (process_video ⟨false, true, true, true, true, true, true, true⟩
        "jobD" [] {} "hello").trace = ["queued", "downloading", "failed"]
    ∧ ¬ (["queued", "downloading", "failed"] <+:
          ["queued", "downloading", "processing", "completed"])
    ∧ ¬ (["queued", "downloading", "failed"] <+:
          ["queued", "downloading", "processing", "failed"]) := by
  refine ⟨by decide, by decide, by decide⟩

/-- Claim C4 (amended): within a single job run the status sequence is one of
`queued, downloading, failed` (download raised), `queued, downloading,
processing, failed`, or `queued, downloading, processing, completed`; in
every case the statuses strictly ascend the order `queued < downloading <
processing < terminal`, so no state repeats, no backward transition occurs,
and `completed`/`failed` are terminal. -/
theorem c4_status_progression (env : Env) (job_id : String)
    (items : List ReplaceItem) (settings : TextSettings) (t : String) :
    ("queued" :: (process_video env job_id items settings t).trace
        = ["queued", "downloading", "failed"]
     ∨ "queued" :: (process_video env job_id items settings t).trace
        = ["queued", "downloading", "processing", "failed"]
     ∨ "queued" :: (process_video env job_id items settings t).trace
        = ["queued", "downloading", "processing", "completed"])
    ∧ ascendingRanks
        ("queued" :: (process_video env job_id items settings t).trace) = true := by
  rw [trace_indep]
  rcases env with ⟨d, l, tc, co, w, cv, ct, cf⟩
  cases hp : replItemsRaise items || settings.max_words_per_line == 0 <;>
    cases d <;> cases l <;> cases tc <;> cases co <;> cases w <;>
    cases cv <;> cases ct <;> cases cf <;> decide

/-- Claim C5, as stated, is false of the code: `process_video` contains no
deletion of the downloaded source file on any path — even the fully
successful run leaves the downloaded file on disk (only the clip handles are
closed). -/
theorem c5_file_deletion_refuted :
    (process_video allOkEnv "jobE" [] {} "words").fileDownloaded = true
    ∧ (process_video allOkEnv "jobE" [] {} "words").fileDeleted = false := by
  exact ⟨rfl, rfl⟩

set_option maxHeartbeats 3200000 in
/-- Claim C5 (amended): on every exit path of `process_video` every clip
handle that was opened is closed again, provided the `close()` calls
themselves do not raise (the `except` block closes whatever exists in
`locals()`); the downloaded source file, however, is never deleted on any
path. -/
theorem c5_cleanup (env : Env) (job_id : String) (items : List ReplaceItem)
    (settings : TextSettings) (t : String) :
    (process_video env job_id items settings t).fileDeleted = false
    ∧ (env.closeVideoOk = true → env.closeTxtOk = true → env.closeFinalOk = true →
        ((process_video env job_id items settings t).videoOpened = true →
          (process_video env job_id items settings t).videoClosed = true)
        ∧ ((process_video env job_id items settings t).txtCreated = true →
            (process_video env job_id items settings t).txtClosed = true)
        ∧ ((process_video env job_id items settings t).finalCreated = true →
            (process_video env job_id items settings t).finalClosed = true)) := by
  rcases env with ⟨d, l, tc, co, w, cv, ct, cf⟩
  cases hri : replItemsRaise items <;>
    cases hmw : settings.max_words_per_line == 0 <;>
    cases d <;> cases l <;> cases tc <;> cases co <;> cases w <;>
    cases cv <;> cases ct <;> cases cf <;>
    simp [process_video, handleExcept, hri, hmw]

theorem c5_cleanup_witness :
    (process_video ⟨true, true, true, true, false, true, true, true⟩
        "jobW" [] {} "words").videoClosed = true :=
  ((c5_cleanup ⟨true, true, true, true, false, true, true, true⟩
      "jobW" [] {} "words").2 rfl rfl rfl).1 rfl

/-- Claim C10: replacement rules are applied strictly sequentially, each
operating on the previous rule's output (a left fold): applying the head rule
first and then the rest coincides with the full run, and with the rules
`a ↦ b`, `b ↦ c` on input `"a"` the second rule rewrites the `"b"` that the
first rule introduced (it does not match the original text at all), giving
`"c"`. -/
theorem c10_sequential_fold :
    (∀ (text : String) (i : ReplaceItem) (rest : List ReplaceItem) (s : TextSettings),
       apply_text_transformations text (i :: rest) s =
         apply_text_transformations (applyOne text i) rest s)
    ∧ apply_text_transformations "a" [⟨"a", "b"⟩, ⟨"b", "c"⟩] {} = "c"
    ∧ applyOne "a" ⟨"b", "c"⟩ = "a"
    ∧ applyOne "a" ⟨"a", "b"⟩ = "b" := by
  refine ⟨fun text i rest s => rfl, ?_, ?_, ?_⟩
  · decide
  · decide
  · decide
